import Mathlib

/-!
Shallow embedding of the DreamSpace backend (`src/server.ts`).

The repository contains three variants of the same two-endpoint server:
* a bare variant (poll mode, no input validation),
* an OpenAI-vision variant (poll mode, validated inputs, no local catch
  around the vision call),
* a Gemini-vision variant (wait mode, validated multipart inputs, vision
  fallback and graceful degradation, provider error mapping).

Each handler is embedded as a pure function from the request and an
oracle (the values the external services would return for each possible
outbound call) to the HTTP response together with the ordered list of
outbound provider calls actually issued.
-/

set_option maxRecDepth 8192

namespace DreamSpace

/-- JavaScript truthiness of an optional string field of a request body:
`undefined` and the empty string are falsy. -/
def truthyStr : Option String → Bool
  | none => false
  | some s => if s = "" then false else true

/-- `x || d` on an optional/nullable JavaScript string: the default is taken
when the value is absent or the empty string. -/
def jsOrDefault (m : Option String) (d : String) : String :=
  match m with
  | none => d
  | some s => if s = "" then d else s

/-- Substring containment, as JavaScript `String.prototype.includes`. -/
def strContains (s pat : String) : Bool := decide (pat.data <:+: s.data)

/-- The `code` field of a JavaScript error object: a number or a string. -/
inductive JsCode
  | num (n : Nat)
  | str (s : String)
deriving DecidableEq

/-- A JavaScript error value, restricted to the fields the handlers inspect:
`error?.status`, `error?.code`, `error?.message`, `error?.response?.status`. -/
structure JsError where
  status : Option Nat := none
  code : Option JsCode := none
  message : Option String := none
  responseStatus : Option Nat := none
deriving DecidableEq

/-- The value returned by `replicate.run` in wait mode, as the Gemini-variant
handler distinguishes it: an object exposing a `url()` accessor, a plain
string, `null`, or any other object. -/
inductive JSValue
  | jsNull
  | jsStr (s : String)
  | urlObject (u : String)
  | plainObject
deriving DecidableEq

/-- JavaScript `String(output)` for the modelled values. -/
def jsValueToString : JSValue → String
  | .jsNull => "null"
  | .jsStr s => s
  | .urlObject _ => "[object Object]"
  | .plainObject => "[object Object]"

/-- Output normalization of the Gemini-variant handler (src/server.ts,
wait mode): if the value is a non-null object with a `url` function, call
it; else if it is a string, use it as is; otherwise `String(output)`. -/
def normalizeOutput : JSValue → String
  | .urlObject u => u
  | .jsStr s => s
  | v => jsValueToString v

/-- The fixed instruction sent to the vision model (both the OpenAI and the
Gemini variants use the same text). -/
def visionInstruction : String :=
  "You are an expert interior design assistant. Analyze this image of a room. Respond ONLY with a brief, bulleted list of the key furniture, objects, and materials you see. Be concise."

/-- The enhanced prompt built when a scene analysis is used: the template
literal of the OpenAI variant and of the first branch of the Gemini
variant (they are textually identical in the source). -/
def contentsPrompt (userPrompt aiAnalysis : String) : String :=
  "\nA user wants to redesign their room. Their goal is: \"" ++ userPrompt ++
  "\"\n\nHere is an analysis of the room\x27s current contents:\n" ++ aiAnalysis ++
  "\n\nPlease generate a new image that fulfills the user\x27s goal, organizing and restyling the analyzed contents.\n"

/-- The fallback prompt of the Gemini variant, used when the AI analysis is
absent or marked as skipped/unavailable. -/
def fallbackPrompt (userPrompt : String) : String :=
  "Redesign this room according to the following request: \"" ++ userPrompt ++
  "\". Apply the requested changes while maintaining the overall room structure and layout."

/-- The branch condition of the Gemini-variant prompt composition:
`aiAnalysis && !aiAnalysis.includes("Skipped") && !aiAnalysis.includes("unavailable")`. -/
def realSceneAnalysis (aiAnalysis : String) : Bool :=
  (if aiAnalysis = "" then false else true) &&
    !(strContains aiAnalysis "Skipped") && !(strContains aiAnalysis "unavailable")

/-- STEP 2 of the Gemini-variant handler: compose the enhanced prompt. -/
def geminiEnhancedPrompt (userPrompt aiAnalysis : String) : String :=
  if realSceneAnalysis aiAnalysis then contentsPrompt userPrompt aiAnalysis
  else fallbackPrompt userPrompt

/-- STEP 2 of the OpenAI-variant handler: compose the enhanced prompt
(unconditionally the contents template). -/
def openaiEnhancedPrompt (userPrompt aiAnalysis : String) : String :=
  contentsPrompt userPrompt aiAnalysis

/-- The Gemini-variant test for a quota/rate-limit vision error:
`status === 429 || code === 429 || message?.includes("quota")`. -/
def isGeminiQuotaError (e : JsError) : Bool :=
  decide (e.status = some 429) || decide (e.code = some (JsCode.num 429)) ||
    (match e.message with
     | some m => strContains m "quota"
     | none => false)

/-- The sentinel scene description substituted when the Gemini vision step
fails: a quota sentinel or a generic unavailable sentinel. -/
def geminiSentinel (e : JsError) : String :=
  if isGeminiQuotaError e then "Skipped AI analysis due to quota limits."
  else "AI analysis unavailable."

/-- An outbound call to an external provider, with the payload sent. -/
inductive ExtCall
  | openaiVision (image : String)
  | geminiFlash (data mime instruction : String)
  | geminiProVision (data mime instruction : String)
  | replicateCreate (image : Option String) (prompt : Option String)
  | replicateRun (image prompt : String)
  | replicateGet (id : String)
deriving DecidableEq

/-- A provider job object, relayed verbatim in poll mode; the handlers never
inspect it, so only an opaque identifier is modelled. -/
structure Prediction where
  id : String
deriving DecidableEq

/-- Response bodies the handlers can produce. -/
inductive RespBody
  | errorBody (error : String) (details : Option String)
  | waitSuccess (output imageUrl : String)
  | prediction (p : Prediction)
deriving DecidableEq

/-- An HTTP response: status code and body. -/
structure HttpResponse where
  status : Nat
  body : RespBody
deriving DecidableEq

/-- Results the external services would return, one per possible call of
the Gemini-variant handler. -/
structure GeminiOracle where
  flash : Except JsError String
  proVision : Except JsError String
  run : Except JsError JSValue

/-- STEP 1 of the Gemini-variant handler: call gemini-1.5-flash; if it
fails with status 404, retry once with gemini-pro-vision; a success text is
defaulted through `|| "No analysis available"`; any error reaching the
outer catch is replaced by a sentinel description. Returns the analysis
string and the vision calls issued. -/
def geminiVisionStep (o : GeminiOracle) (data mime : String) : String × List ExtCall :=
  match o.flash with
  | .ok t => (jsOrDefault (some t) "No analysis available", [.geminiFlash data mime visionInstruction])
  | .error e =>
    if e.status = some 404 then
      match o.proVision with
      | .ok t =>
        (jsOrDefault (some t) "No analysis available",
         [.geminiFlash data mime visionInstruction, .geminiProVision data mime visionInstruction])
      | .error e2 =>
        (geminiSentinel e2,
         [.geminiFlash data mime visionInstruction, .geminiProVision data mime visionInstruction])
    else (geminiSentinel e, [.geminiFlash data mime visionInstruction])

/-- `error?.status === 429 || error?.code === "insufficient_quota" || error?.code === 429`. -/
def isQuotaSignal (e : JsError) : Bool :=
  decide (e.status = some 429) || decide (e.code = some (JsCode.str "insufficient_quota")) ||
    decide (e.code = some (JsCode.num 429))

/-- `error?.status === 404 || error?.response?.status === 404`. -/
def isNotFoundSignal (e : JsError) : Bool :=
  decide (e.status = some 404) || decide (e.responseStatus = some 404)

/-- `error?.status === 400 || error?.response?.status === 400`. -/
def isBadRequestSignal (e : JsError) : Bool :=
  decide (e.status = some 400) || decide (e.responseStatus = some 400)

/-- The Gemini-variant mapping from a provider failure to the client-visible
response (the outer catch of the start-redesign handler). -/
def mapProviderError (e : JsError) : HttpResponse :=
  if isQuotaSignal e then
    ⟨429, .errorBody "API quota exceeded. Please check your API billing and quota." e.message⟩
  else if isNotFoundSignal e then
    ⟨404, .errorBody
      "Replicate model not found. The model may have been removed or the version identifier is incorrect."
      (some (jsOrDefault e.message "Model not found on Replicate"))⟩
  else if isBadRequestSignal e then
    ⟨400, .errorBody "Invalid request parameters" e.message⟩
  else
    ⟨500, .errorBody "Failed to start redesign" (some (jsOrDefault e.message "Unknown error occurred"))⟩

/-- A multer-parsed upload in the Gemini variant: mime type and the base64
rendering of the buffer. -/
structure FileModel where
  mimetype : String
  base64 : String
deriving DecidableEq

/-- The request body of the Gemini-variant start-redesign endpoint. The
`style` and `roomType` fields may be sent by a client; the handler reads
only `file` and `userPrompt`. -/
structure GeminiRequest where
  file : Option FileModel := none
  userPrompt : Option String := none
  style : Option String := none
  roomType : Option String := none

/-- The data URI built from the uploaded file. -/
def dataUri (f : FileModel) : String :=
  "data:" ++ f.mimetype ++ ";base64," ++ f.base64

/-- The body of the Gemini-variant `POST /api/start-redesign` handler after
input validation has passed: convert the upload to a data URI, run the
vision step, compose the enhanced prompt, call `replicate.run` once and
answer 201 on success or the mapped error response on failure. -/
def startRedesignGeminiValidated (f : FileModel) (userPrompt : String) (o : GeminiOracle) :
    HttpResponse × List ExtCall :=
  let imageBase64 := dataUri f
  let base64Data := (imageBase64.splitOn ",").getD 1 ""
  let step1 := geminiVisionStep o base64Data f.mimetype
  let enhanced := geminiEnhancedPrompt userPrompt step1.1
  match o.run with
  | .ok output =>
    let u := normalizeOutput output
    (⟨201, .waitSuccess u u⟩, step1.2 ++ [.replicateRun imageBase64 enhanced])
  | .error e => (mapProviderError e, step1.2 ++ [.replicateRun imageBase64 enhanced])

/-- The Gemini-variant `POST /api/start-redesign` handler. -/
def startRedesignGemini (req : GeminiRequest) (o : GeminiOracle) :
    HttpResponse × List ExtCall :=
  match req.file with
  | none => (⟨400, .errorBody "Both image file and userPrompt are required" none⟩, [])
  | some f =>
    if truthyStr req.userPrompt = false then
      (⟨400, .errorBody "Both image file and userPrompt are required" none⟩, [])
    else
      startRedesignGeminiValidated f (req.userPrompt.getD "") o

/-- The request body of the OpenAI-variant start-redesign endpoint. -/
structure OpenAIRequest where
  image : Option String := none
  userPrompt : Option String := none
  style : Option String := none
  roomType : Option String := none

/-- Results the external services would return for the OpenAI variant:
the vision call yields `choices[0].message.content` (a string or null),
the create call yields a prediction object. -/
structure OpenAIOracle where
  vision : Except JsError (Option String)
  create : Except JsError Prediction

/-- The OpenAI-variant `POST /api/start-redesign` handler. The vision call
has no local catch: any vision failure reaches the outer catch and is
answered with a generic 500 before the image-generation call is made. -/
def startRedesignOpenAI (req : OpenAIRequest) (o : OpenAIOracle) :
    HttpResponse × List ExtCall :=
  if truthyStr req.image = false || truthyStr req.userPrompt = false then
    (⟨400, .errorBody "Both image and userPrompt are required" none⟩, [])
  else
    let image := req.image.getD ""
    let userPrompt := req.userPrompt.getD ""
    match o.vision with
    | .error _ =>
      (⟨500, .errorBody "Failed to start redesign" none⟩, [.openaiVision image])
    | .ok content =>
      let aiAnalysis := jsOrDefault content "No analysis available"
      let enhanced := openaiEnhancedPrompt userPrompt aiAnalysis
      match o.create with
      | .ok p =>
        (⟨201, .prediction p⟩,
         [.openaiVision image, .replicateCreate (some image) (some enhanced)])
      | .error _ =>
        (⟨500, .errorBody "Failed to start redesign" none⟩,
         [.openaiVision image, .replicateCreate (some image) (some enhanced)])

/-- The request body of the bare-variant start-redesign endpoint. -/
structure BareRequest where
  image : Option String := none
  prompt : Option String := none

/-- The external result for the bare variant: the create call. -/
structure BareOracle where
  create : Except JsError Prediction

/-- The bare-variant `POST /api/start-redesign` handler: no validation at
all; the provider is called with whatever (possibly absent) fields the
body held. -/
def startRedesignBare (req : BareRequest) (o : BareOracle) :
    HttpResponse × List ExtCall :=
  match o.create with
  | .ok p => (⟨201, .prediction p⟩, [.replicateCreate req.image req.prompt])
  | .error _ =>
    (⟨500, .errorBody "Failed to start redesign" none⟩,
     [.replicateCreate req.image req.prompt])

/-- A query-string value in Express: a string, an array, or absent. -/
inductive QueryVal
  | qstr (s : String)
  | qarr
  | qnone

/-- The `GET /api/get-redesign` handler (identical in all three variants):
missing or non-string or empty id is a local 400; otherwise a single status
fetch, relayed verbatim on success, 500 on failure. -/
def getRedesign (id : QueryVal) (o : Except JsError Prediction) :
    HttpResponse × List ExtCall :=
  match id with
  | .qstr s =>
    if s = "" then (⟨400, .errorBody "Prediction ID is required" none⟩, [])
    else
      match o with
      | .ok p => (⟨200, .prediction p⟩, [.replicateGet s])
      | .error _ =>
        (⟨500, .errorBody "Failed to get redesign status" none⟩, [.replicateGet s])
  | _ => (⟨400, .errorBody "Prediction ID is required" none⟩, [])

/-- Is this outbound call a vision-analysis call? -/
def isVisionCall : ExtCall → Bool
  | .openaiVision _ => true
  | .geminiFlash _ _ _ => true
  | .geminiProVision _ _ _ => true
  | _ => false

/-- Is this outbound call an image-generation call? -/
def isImageGenCall : ExtCall → Bool
  | .replicateCreate _ _ => true
  | .replicateRun _ _ => true
  | _ => false

/-- The Gemini vision step fails as a whole: either the first call fails
with a non-404 error, or it fails with 404 and the fallback model call
fails too. -/
def geminiVisionFailed (o : GeminiOracle) : Prop :=
  (∃ e, o.flash = .error e ∧ e.status ≠ some 404) ∨
  (∃ e e2, o.flash = .error e ∧ e.status = some 404 ∧ o.proVision = .error e2)

/-! ### Helper lemmas -/

theorem infix_extend_left {α : Type} (x : List α) {l r : List α} (h : l <:+: r) :
    l <:+: x ++ r := by
  obtain ⟨s, t, rfl⟩ := h
  exact ⟨x ++ s, t, by simp⟩

theorem infix_extend_right {α : Type} (x : List α) {l r : List α} (h : l <:+: r) :
    l <:+: r ++ x := by
  obtain ⟨s, t, rfl⟩ := h
  exact ⟨s, t ++ x, by simp⟩

theorem strContains_eq_true {s pat : String} (h : pat.data <:+: s.data) :
    strContains s pat = true := by
  simp [strContains, h]

theorem contentsPrompt_data (up ai : String) :
    (contentsPrompt up ai).data =
      "\nA user wants to redesign their room. Their goal is: \"".data ++
      (up.data ++ ("\"\n\nHere is an analysis of the room\x27s current contents:\n".data ++
      (ai.data ++
      "\n\nPlease generate a new image that fulfills the user\x27s goal, organizing and restyling the analyzed contents.\n".data))) := by
  simp [contentsPrompt, String.data_append, List.append_assoc]

theorem fallbackPrompt_data (up : String) :
    (fallbackPrompt up).data =
      "Redesign this room according to the following request: \"".data ++
      (up.data ++
      "\". Apply the requested changes while maintaining the overall room structure and layout.".data) := by
  simp [fallbackPrompt, String.data_append, List.append_assoc]

theorem contentsPrompt_contains_contents (up ai : String) :
    strContains (contentsPrompt up ai) "analysis of the room\x27s current contents" = true := by
  apply strContains_eq_true
  rw [contentsPrompt_data]
  exact infix_extend_left _ (infix_extend_left _ (infix_extend_right _ (by decide)))

theorem contentsPrompt_contains_restyling (up ai : String) :
    strContains (contentsPrompt up ai) "organizing and restyling the analyzed contents" = true := by
  apply strContains_eq_true
  rw [contentsPrompt_data]
  exact infix_extend_left _ (infix_extend_left _ (infix_extend_left _ (infix_extend_left _
    (by decide))))

theorem contentsPrompt_contains_analysis (up ai : String) :
    strContains (contentsPrompt up ai) ai = true := by
  apply strContains_eq_true
  rw [contentsPrompt_data]
  exact infix_extend_left _ (infix_extend_left _ (infix_extend_left _
    (infix_extend_right _ (List.infix_refl _))))

theorem contentsPrompt_contains_userPrompt (up ai : String) :
    strContains (contentsPrompt up ai) up = true := by
  apply strContains_eq_true
  rw [contentsPrompt_data]
  exact infix_extend_left _ (infix_extend_right _ (List.infix_refl _))

theorem fallbackPrompt_contains_userPrompt (up : String) :
    strContains (fallbackPrompt up) up = true := by
  apply strContains_eq_true
  rw [fallbackPrompt_data]
  exact infix_extend_left _ (infix_extend_right _ (List.infix_refl _))

theorem fallbackPrompt_contains_structure (up : String) :
    strContains (fallbackPrompt up) "maintaining the overall room structure and layout" = true := by
  apply strContains_eq_true
  rw [fallbackPrompt_data]
  exact infix_extend_left _ (infix_extend_left _ (by decide))

theorem realSceneAnalysis_sentinel (e : JsError) :
    realSceneAnalysis (geminiSentinel e) = false := by
  unfold geminiSentinel
  split <;> decide

theorem geminiEnhancedPrompt_of_real {ai : String} (up : String)
    (h : realSceneAnalysis ai = true) :
    geminiEnhancedPrompt up ai = contentsPrompt up ai := by
  unfold geminiEnhancedPrompt
  rw [h]
  simp

theorem geminiEnhancedPrompt_of_not_real {ai : String} (up : String)
    (h : realSceneAnalysis ai = false) :
    geminiEnhancedPrompt up ai = fallbackPrompt up := by
  unfold geminiEnhancedPrompt
  rw [h]
  simp

theorem geminiEnhancedPrompt_sentinel (up : String) (e : JsError) :
    geminiEnhancedPrompt up (geminiSentinel e) = fallbackPrompt up :=
  geminiEnhancedPrompt_of_not_real up (realSceneAnalysis_sentinel e)

theorem geminiVisionStep_failed_analysis (o : GeminiOracle) (d m : String)
    (h : geminiVisionFailed o) :
    ∃ e, (geminiVisionStep o d m).1 = geminiSentinel e := by
  rcases h with ⟨e, hf, hst⟩ | ⟨e, e2, hf, hst, hp⟩
  · exact ⟨e, by simp [geminiVisionStep, hf, hst]⟩
  · exact ⟨e2, by simp [geminiVisionStep, hf, hst, hp]⟩

theorem startRedesignGemini_valid (req : GeminiRequest) (o : GeminiOracle)
    (f : FileModel) (up : String) (hf : req.file = some f)
    (hup : req.userPrompt = some up) (hne : up ≠ "") :
    startRedesignGemini req o = startRedesignGeminiValidated f up o := by
  simp [startRedesignGemini, hf, hup, truthyStr, hne]

theorem startRedesignGeminiValidated_run_mem (f : FileModel) (up : String)
    (o : GeminiOracle) :
    ExtCall.replicateRun (dataUri f)
        (geminiEnhancedPrompt up
          (geminiVisionStep o (((dataUri f).splitOn ",").getD 1 "") f.mimetype).1) ∈
      (startRedesignGeminiValidated f up o).2 := by
  unfold startRedesignGeminiValidated
  cases hr : o.run <;> simp [hr]

theorem geminiVisionStep_calls (o : GeminiOracle) (d m : String) :
    (geminiVisionStep o d m).2 = [ExtCall.geminiFlash d m visionInstruction] ∨
    ((∃ e, o.flash = .error e ∧ e.status = some 404) ∧
      (geminiVisionStep o d m).2 =
        [ExtCall.geminiFlash d m visionInstruction,
         ExtCall.geminiProVision d m visionInstruction]) := by
  cases hfl : o.flash with
  | ok t => left; simp [geminiVisionStep, hfl]
  | error e =>
    by_cases h404 : e.status = some 404
    · refine Or.inr ⟨⟨e, rfl, h404⟩, ?_⟩
      cases hp : o.proVision <;> simp [geminiVisionStep, hfl, h404, hp]
    · left; simp [geminiVisionStep, hfl, h404]

theorem geminiVisionStep_calls_of_nonretryable (o : GeminiOracle) (d m : String)
    (e : JsError) (hfl : o.flash = .error e) (h404 : e.status ≠ some 404) :
    (geminiVisionStep o d m).2 = [ExtCall.geminiFlash d m visionInstruction] := by
  simp [geminiVisionStep, hfl, h404]

theorem startRedesignGeminiValidated_calls (f : FileModel) (up : String) (o : GeminiOracle) :
    (startRedesignGeminiValidated f up o).2 =
      (geminiVisionStep o (((dataUri f).splitOn ",").getD 1 "") f.mimetype).2 ++
        [ExtCall.replicateRun (dataUri f)
          (geminiEnhancedPrompt up
            (geminiVisionStep o (((dataUri f).splitOn ",").getD 1 "") f.mimetype).1)] := by
  unfold startRedesignGeminiValidated
  cases hr : o.run <;> simp [hr]

theorem startRedesignGemini_calls_cases (req : GeminiRequest) (o : GeminiOracle) :
    (startRedesignGemini req o).2 = [] ∨
    ∃ f up, (startRedesignGemini req o).2 =
      (geminiVisionStep o (((dataUri f).splitOn ",").getD 1 "") f.mimetype).2 ++
        [ExtCall.replicateRun (dataUri f)
          (geminiEnhancedPrompt up
            (geminiVisionStep o (((dataUri f).splitOn ",").getD 1 "") f.mimetype).1)] := by
  cases hf : req.file with
  | none => left; simp [startRedesignGemini, hf]
  | some f =>
    by_cases hup : truthyStr req.userPrompt = false
    · left; simp [startRedesignGemini, hf, hup]
    · right
      refine ⟨f, req.userPrompt.getD "", ?_⟩
      have h : startRedesignGemini req o =
          startRedesignGeminiValidated f (req.userPrompt.getD "") o := by
        simp [startRedesignGemini, hf, hup]
      rw [h]
      exact startRedesignGeminiValidated_calls f _ o

/-! ### Claim theorems -/

/-- C5: for every input to the Gemini-variant prompt composer, if the scene
analysis is real (non-empty, not marked skipped/unavailable), the composed
prompt is the contents template: it mentions the room\x27s current contents,
frames the task as reorganizing/restyling them, and embeds the analysis
and the user goal. Otherwise the composed prompt is exactly the fallback
template, which states the user goal with a preserve-structure instruction
and (being independent of the analysis) adds no contents-description
clause. -/
theorem C5_thm (up ai : String) :
    (realSceneAnalysis ai = true →
      geminiEnhancedPrompt up ai = contentsPrompt up ai ∧
      strContains (geminiEnhancedPrompt up ai) "analysis of the room\x27s current contents" = true ∧
      strContains (geminiEnhancedPrompt up ai) "organizing and restyling the analyzed contents" = true ∧
      strContains (geminiEnhancedPrompt up ai) ai = true ∧
      strContains (geminiEnhancedPrompt up ai) up = true) ∧
    (realSceneAnalysis ai = false →
      geminiEnhancedPrompt up ai = fallbackPrompt up ∧
      strContains (geminiEnhancedPrompt up ai) up = true ∧
      strContains (geminiEnhancedPrompt up ai)
        "maintaining the overall room structure and layout" = true ∧
      strContains (fallbackPrompt "") "contents" = false) := by
  constructor
  · intro h
    have he := geminiEnhancedPrompt_of_real up h
    rw [he]
    exact ⟨rfl, contentsPrompt_contains_contents up ai,
      contentsPrompt_contains_restyling up ai, contentsPrompt_contains_analysis up ai,
      contentsPrompt_contains_userPrompt up ai⟩
  · intro h
    have he := geminiEnhancedPrompt_of_not_real up h
    rw [he]
    exact ⟨rfl, fallbackPrompt_contains_userPrompt up,
      fallbackPrompt_contains_structure up, by decide⟩

/-- Witness for C5 at concrete inputs: a real analysis selects the contents
template, a failure sentinel selects the fallback template. -/
theorem C5_witness :
    geminiEnhancedPrompt "Make it cozy" "a wooden table and two chairs" =
      contentsPrompt "Make it cozy" "a wooden table and two chairs" ∧
    geminiEnhancedPrompt "Make it cozy" "AI analysis unavailable." =
      fallbackPrompt "Make it cozy" :=
  ⟨((C5_thm "Make it cozy" "a wooden table and two chairs").1 (by decide)).1,
   ((C5_thm "Make it cozy" "AI analysis unavailable.").2 (by decide)).1⟩

/-- C8: both prompt composers are pure deterministic functions of the
request-level inputs (user prompt, style tag, room-type tag, scene
description): identical input tuples give byte-identical composed
prompts. In the embedding the composers are total functions with no
effects, mirroring the source, which performs only string concatenation. -/
theorem C8_thm (up1 ai1 up2 ai2 : String) (st1 rt1 st2 rt2 : Option String)
    (h : (up1, st1, rt1, ai1) = (up2, st2, rt2, ai2)) :
    geminiEnhancedPrompt up1 ai1 = geminiEnhancedPrompt up2 ai2 ∧
    openaiEnhancedPrompt up1 ai1 = openaiEnhancedPrompt up2 ai2 := by
  cases h
  exact ⟨rfl, rfl⟩

/-- Witness for C8 at a concrete input tuple. -/
theorem C8_witness :
    geminiEnhancedPrompt "Make it cozy" "a sofa" =
      geminiEnhancedPrompt "Make it cozy" "a sofa" ∧
    openaiEnhancedPrompt "Make it cozy" "a sofa" =
      openaiEnhancedPrompt "Make it cozy" "a sofa" :=
  C8_thm "Make it cozy" "a sofa" "Make it cozy" "a sofa" none none none none rfl

/-- C10: in the Gemini variant, a vision analysis that succeeds but whose
returned text contains "Skipped" or "unavailable" is treated exactly like
a failed analysis: the composed prompt is the fallback prompt, and the
image-generation call receives that fallback prompt. -/
theorem C10_thm (req : GeminiRequest) (o : GeminiOracle) (f : FileModel) (up t : String)
    (hf : req.file = some f) (hup : req.userPrompt = some up) (hne : up ≠ "")
    (hok : o.flash = .ok t)
    (hs : strContains t "Skipped" = true ∨ strContains t "unavailable" = true) :
    geminiEnhancedPrompt up t = fallbackPrompt up ∧
    ExtCall.replicateRun (dataUri f) (fallbackPrompt up) ∈ (startRedesignGemini req o).2 := by
  have htne : t ≠ "" := by
    intro h0
    subst h0
    rcases hs with h | h <;> exact absurd h (by decide)
  have hreal : realSceneAnalysis t = false := by
    unfold realSceneAnalysis
    rcases hs with h | h <;> simp [h, htne]
  have he := geminiEnhancedPrompt_of_not_real up hreal
  refine ⟨he, ?_⟩
  rw [startRedesignGemini_valid req o f up hf hup hne]
  have hstep : (geminiVisionStep o (((dataUri f).splitOn ",").getD 1 "") f.mimetype).1 = t := by
    simp [geminiVisionStep, hok, jsOrDefault, htne]
  have hmem := startRedesignGeminiValidated_run_mem f up o
  rw [hstep, he] at hmem
  exact hmem

/-- Witness for C10: a successful vision text "Skipped AI analysis due to
quota limits." routes the request to the fallback prompt. -/
theorem C10_witness :
    geminiEnhancedPrompt "Make it cozy" "Skipped AI analysis due to quota limits." =
      fallbackPrompt "Make it cozy" ∧
    ExtCall.replicateRun (dataUri ⟨"image/png", "AAA"⟩) (fallbackPrompt "Make it cozy") ∈
      (startRedesignGemini ⟨some ⟨"image/png", "AAA"⟩, some "Make it cozy", none, none⟩
        ⟨.ok "Skipped AI analysis due to quota limits.", .ok "x",
         .ok (.urlObject "https://img")⟩).2 :=
  C10_thm ⟨some ⟨"image/png", "AAA"⟩, some "Make it cozy", none, none⟩
    ⟨.ok "Skipped AI analysis due to quota limits.", .ok "x", .ok (.urlObject "https://img")⟩
    ⟨"image/png", "AAA"⟩ "Make it cozy" "Skipped AI analysis due to quota limits."
    rfl rfl (by decide) rfl (Or.inl (by decide))

/-- C1 counterexample: in the OpenAI variant a vision failure (here a 401)
is surfaced to the client as a 500 request failure, and no image-generation
call is made — the claim fails for every such request. -/
theorem C1_counterexample :
    (startRedesignOpenAI ⟨some "data:image/png;base64,AAA", some "Make it cozy", none, none⟩
        ⟨.error ⟨some 401, none, some "Unauthorized", none⟩, .ok ⟨"p1"⟩⟩).1.status = 500 ∧
    List.filter isImageGenCall
      (startRedesignOpenAI ⟨some "data:image/png;base64,AAA", some "Make it cozy", none, none⟩
        ⟨.error ⟨some 401, none, some "Unauthorized", none⟩, .ok ⟨"p1"⟩⟩).2 = [] := by
  decide

/-- C1 amended: in the Gemini variant a vision-step failure is never
surfaced — a sentinel description is substituted, the fallback prompt is
sent to the image-generation provider, and a successful generation still
answers 201. In the OpenAI variant, however, a vision failure is answered
with a 500 and the image-generation call is never reached. -/
theorem C1_thm :
    (∀ (req : GeminiRequest) (o : GeminiOracle) (f : FileModel) (up : String),
      req.file = some f → req.userPrompt = some up → up ≠ "" → geminiVisionFailed o →
      ExtCall.replicateRun (dataUri f) (fallbackPrompt up) ∈ (startRedesignGemini req o).2 ∧
      (∀ v, o.run = .ok v → (startRedesignGemini req o).1.status = 201)) ∧
    (∀ (req : OpenAIRequest) (o : OpenAIOracle) (e : JsError),
      truthyStr req.image = true → truthyStr req.userPrompt = true → o.vision = .error e →
      (startRedesignOpenAI req o).1.status = 500 ∧
      List.filter isImageGenCall (startRedesignOpenAI req o).2 = []) := by
  constructor
  · intro req o f up hf hup hne hfail
    obtain ⟨e, hsent⟩ :=
      geminiVisionStep_failed_analysis o (((dataUri f).splitOn ",").getD 1 "") f.mimetype hfail
    rw [startRedesignGemini_valid req o f up hf hup hne]
    constructor
    · have hmem := startRedesignGeminiValidated_run_mem f up o
      rw [hsent, geminiEnhancedPrompt_sentinel up e] at hmem
      exact hmem
    · intro v hv
      unfold startRedesignGeminiValidated
      simp [hv]
  · intro req o e himg hup hv
    constructor <;> simp [startRedesignOpenAI, himg, hup, hv, isImageGenCall]

/-- Witness for C1 amended: a concrete failing Gemini vision call still
reaches the provider with the fallback prompt, and a concrete failing
OpenAI vision call yields a 500. -/
theorem C1_witness :
    ExtCall.replicateRun (dataUri ⟨"image/png", "AAA"⟩) (fallbackPrompt "Make it cozy") ∈
      (startRedesignGemini ⟨some ⟨"image/png", "AAA"⟩, some "Make it cozy", none, none⟩
        ⟨.error ⟨some 500, none, some "network error", none⟩, .ok "x",
         .ok (.urlObject "https://img")⟩).2 ∧
    (startRedesignOpenAI ⟨some "img", some "p", none, none⟩
        ⟨.error ⟨some 401, none, none, none⟩, .ok ⟨"p1"⟩⟩).1.status = 500 :=
  ⟨(C1_thm.1 ⟨some ⟨"image/png", "AAA"⟩, some "Make it cozy", none, none⟩
      ⟨.error ⟨some 500, none, some "network error", none⟩, .ok "x",
       .ok (.urlObject "https://img")⟩
      ⟨"image/png", "AAA"⟩ "Make it cozy" rfl rfl (by decide)
      (Or.inl ⟨⟨some 500, none, some "network error", none⟩, rfl, by decide⟩)).1,
   (C1_thm.2 ⟨some "img", some "p", none, none⟩
      ⟨.error ⟨some 401, none, none, none⟩, .ok ⟨"p1"⟩⟩
      ⟨some 401, none, none, none⟩ (by decide) (by decide) rfl).1⟩

/-- C3 counterexample: the bare variant performs no input validation — a
request with no image is not answered 400, and an outbound image-generation
call is made anyway. -/
theorem C3_counterexample :
    (startRedesignBare ⟨none, some "Make it cozy"⟩ ⟨.ok ⟨"p1"⟩⟩).1.status = 201 ∧
    List.filter isImageGenCall
      (startRedesignBare ⟨none, some "Make it cozy"⟩ ⟨.ok ⟨"p1"⟩⟩).2 ≠ [] := by
  decide

/-- C3 amended: in the OpenAI and Gemini variants a missing image is
rejected locally with 400 and no outbound call is made; the bare variant
performs no validation and always issues the provider call, image or not. -/
theorem C3_thm :
    (∀ (req : OpenAIRequest) (o : OpenAIOracle), truthyStr req.image = false →
      startRedesignOpenAI req o =
        (⟨400, .errorBody "Both image and userPrompt are required" none⟩, [])) ∧
    (∀ (req : GeminiRequest) (o : GeminiOracle), req.file = none →
      startRedesignGemini req o =
        (⟨400, .errorBody "Both image file and userPrompt are required" none⟩, [])) ∧
    (∀ (req : BareRequest) (o : BareOracle),
      ExtCall.replicateCreate req.image req.prompt ∈ (startRedesignBare req o).2) := by
  refine ⟨?_, ?_, ?_⟩
  · intro req o h
    simp [startRedesignOpenAI, h]
  · intro req o h
    simp [startRedesignGemini, h]
  · intro req o
    unfold startRedesignBare
    cases o.create <;> simp

/-- Witness for C3 amended at concrete requests. -/
theorem C3_witness :
    startRedesignOpenAI ⟨none, some "Make it cozy", none, none⟩
        ⟨.ok (some "a table"), .ok ⟨"p1"⟩⟩ =
      (⟨400, .errorBody "Both image and userPrompt are required" none⟩, []) ∧
    startRedesignGemini ⟨none, some "Make it cozy", none, none⟩
        ⟨.ok "a table", .ok "x", .ok (.urlObject "https://img")⟩ =
      (⟨400, .errorBody "Both image file and userPrompt are required" none⟩, []) ∧
    ExtCall.replicateCreate none (some "Make it cozy") ∈
      (startRedesignBare ⟨none, some "Make it cozy"⟩ ⟨.ok ⟨"p1"⟩⟩).2 :=
  ⟨C3_thm.1 ⟨none, some "Make it cozy", none, none⟩ ⟨.ok (some "a table"), .ok ⟨"p1"⟩⟩
      (by decide),
   C3_thm.2.1 ⟨none, some "Make it cozy", none, none⟩
      ⟨.ok "a table", .ok "x", .ok (.urlObject "https://img")⟩ rfl,
   C3_thm.2.2 ⟨none, some "Make it cozy"⟩ ⟨.ok ⟨"p1"⟩⟩⟩

/-- C7 counterexample: a request with an image but no user prompt is
rejected with 400 by both validated variants — the prompt field is not
optional there. -/
theorem C7_counterexample :
    (startRedesignGemini ⟨some ⟨"image/png", "AAA"⟩, none, none, none⟩
        ⟨.ok "a table", .ok "x", .ok (.urlObject "https://img")⟩).1.status = 400 ∧
    (startRedesignGemini ⟨some ⟨"image/png", "AAA"⟩, none, none, none⟩
        ⟨.ok "a table", .ok "x", .ok (.urlObject "https://img")⟩).2 = [] ∧
    (startRedesignOpenAI ⟨some "data:image/png;base64,AAA", none, none, none⟩
        ⟨.ok (some "a table"), .ok ⟨"p1"⟩⟩).1.status = 400 := by
  decide

/-- C7 amended: the user prompt is required in the OpenAI and Gemini
variants — an absent or empty prompt is answered 400 before any external
call; only the bare variant accepts a request without a prompt (it never
answers 400 and always forwards to the provider). -/
theorem C7_thm :
    (∀ (req : OpenAIRequest) (o : OpenAIOracle), truthyStr req.userPrompt = false →
      (startRedesignOpenAI req o).1.status = 400 ∧ (startRedesignOpenAI req o).2 = []) ∧
    (∀ (req : GeminiRequest) (o : GeminiOracle), truthyStr req.userPrompt = false →
      (startRedesignGemini req o).1.status = 400 ∧ (startRedesignGemini req o).2 = []) ∧
    (∀ (req : BareRequest) (o : BareOracle),
      (startRedesignBare req o).1.status ≠ 400 ∧
      ExtCall.replicateCreate req.image req.prompt ∈ (startRedesignBare req o).2) := by
  refine ⟨?_, ?_, ?_⟩
  · intro req o h
    constructor <;> simp [startRedesignOpenAI, h]
  · intro req o h
    cases hf : req.file <;> constructor <;> simp [startRedesignGemini, hf, h]
  · intro req o
    unfold startRedesignBare
    cases o.create <;> simp

/-- Witness for C7 amended at concrete requests. -/
theorem C7_witness :
    (startRedesignOpenAI ⟨some "img", none, none, none⟩
        ⟨.ok (some "a table"), .ok ⟨"p1"⟩⟩).1.status = 400 ∧
    (startRedesignGemini ⟨some ⟨"image/png", "AAA"⟩, none, none, none⟩
        ⟨.ok "a table", .ok "x", .ok (.urlObject "https://img")⟩).1.status = 400 ∧
    (startRedesignBare ⟨some "img", none⟩ ⟨.ok ⟨"p1"⟩⟩).1.status ≠ 400 :=
  ⟨(C7_thm.1 ⟨some "img", none, none, none⟩ ⟨.ok (some "a table"), .ok ⟨"p1"⟩⟩ rfl).1,
   (C7_thm.2.1 ⟨some ⟨"image/png", "AAA"⟩, none, none, none⟩
      ⟨.ok "a table", .ok "x", .ok (.urlObject "https://img")⟩ rfl).1,
   (C7_thm.2.2 ⟨some "img", none⟩ ⟨.ok ⟨"p1"⟩⟩).1⟩

/-- C2 counterexample: a provider failure with status 422 is answered 500,
not 422 — the handler has no 422 branch. -/
theorem C2_counterexample :
    (startRedesignGemini ⟨some ⟨"image/png", "AAA"⟩, some "Make it cozy", none, none⟩
        ⟨.ok "a table", .ok "x",
         .error ⟨some 422, none, some "Unprocessable Entity", none⟩⟩).1.status = 500 := by
  decide

/-- C2 amended: for every image-generation provider failure during a valid
Gemini-variant start-redesign request, the response is exactly the mapped
error: quota/429 signals yield 429, 404 signals yield 404, 400 signals
yield 400, and any other provider failure — including a provider-side
422 — yields 500; the body is always a structured error/details object. -/
theorem C2_thm (req : GeminiRequest) (o : GeminiOracle) (f : FileModel) (up : String)
    (e : JsError) (hf : req.file = some f) (hup : req.userPrompt = some up)
    (hne : up ≠ "") (hrun : o.run = .error e) :
    (startRedesignGemini req o).1 = mapProviderError e ∧
    (isQuotaSignal e = true → (startRedesignGemini req o).1.status = 429) ∧
    (isQuotaSignal e = false → isNotFoundSignal e = true →
      (startRedesignGemini req o).1.status = 404) ∧
    (isQuotaSignal e = false → isNotFoundSignal e = false → isBadRequestSignal e = true →
      (startRedesignGemini req o).1.status = 400) ∧
    (isQuotaSignal e = false → isNotFoundSignal e = false → isBadRequestSignal e = false →
      (startRedesignGemini req o).1.status = 500) ∧
    (∃ msg det, (startRedesignGemini req o).1.body = RespBody.errorBody msg det) := by
  have h1 : (startRedesignGemini req o).1 = mapProviderError e := by
    rw [startRedesignGemini_valid req o f up hf hup hne]
    unfold startRedesignGeminiValidated
    simp [hrun]
  refine ⟨h1, ?_, ?_, ?_, ?_, ?_⟩
  · intro hq
    rw [h1]
    simp [mapProviderError, hq]
  · intro hq hn
    rw [h1]
    simp [mapProviderError, hq, hn]
  · intro hq hn hb
    rw [h1]
    simp [mapProviderError, hq, hn, hb]
  · intro hq hn hb
    rw [h1]
    simp [mapProviderError, hq, hn, hb]
  · rw [h1]
    unfold mapProviderError
    split
    · exact ⟨_, _, rfl⟩
    · split
      · exact ⟨_, _, rfl⟩
      · split
        · exact ⟨_, _, rfl⟩
        · exact ⟨_, _, rfl⟩

/-- Witness for C2 amended: a concrete quota failure is answered 429. -/
theorem C2_witness :
    (startRedesignGemini ⟨some ⟨"image/png", "AAA"⟩, some "Make it cozy", none, none⟩
        ⟨.ok "a table", .ok "x",
         .error ⟨some 429, none, some "quota exceeded", none⟩⟩).1.status = 429 :=
  (C2_thm ⟨some ⟨"image/png", "AAA"⟩, some "Make it cozy", none, none⟩
      ⟨.ok "a table", .ok "x", .error ⟨some 429, none, some "quota exceeded", none⟩⟩
      ⟨"image/png", "AAA"⟩ "Make it cozy" ⟨some 429, none, some "quota exceeded", none⟩
      rfl rfl (by decide) rfl).2.1 (by decide)

/-- C4 counterexample: a provider result that is the plain empty string
yields an empty `imageUrl` — the non-emptiness part of the claim fails for
a plain-string result. -/
theorem C4_counterexample :
    (startRedesignGemini ⟨some ⟨"image/png", "AAA"⟩, some "Make it cozy", none, none⟩
        ⟨.ok "a table", .ok "x", .ok (.jsStr "")⟩).1.body = RespBody.waitSuccess "" "" := by
  decide

/-- C4 amended: in wait mode the success response is a 201 with
`{success, output, imageUrl}` where both fields equal the normalized
output; normalization takes a URL accessor first, falls back to the plain
string, and otherwise stringifies the value. `imageUrl` is non-empty
whenever the accessor value or the string is non-empty, and the
stringification of `null` or of a plain object is always non-empty. -/
theorem C4_thm (req : GeminiRequest) (o : GeminiOracle) (f : FileModel) (up : String)
    (v : JSValue) (hf : req.file = some f) (hup : req.userPrompt = some up)
    (hne : up ≠ "") (hrun : o.run = .ok v) :
    (startRedesignGemini req o).1.status = 201 ∧
    (startRedesignGemini req o).1.body =
      RespBody.waitSuccess (normalizeOutput v) (normalizeOutput v) ∧
    (∀ u, normalizeOutput (JSValue.urlObject u) = u) ∧
    (∀ s, normalizeOutput (JSValue.jsStr s) = s) ∧
    normalizeOutput JSValue.jsNull = "null" ∧
    normalizeOutput JSValue.plainObject = "[object Object]" ∧
    (∀ u, u ≠ "" → normalizeOutput (JSValue.urlObject u) ≠ "") ∧
    (∀ s, s ≠ "" → normalizeOutput (JSValue.jsStr s) ≠ "") := by
  have h1 : (startRedesignGemini req o).1 =
      ⟨201, RespBody.waitSuccess (normalizeOutput v) (normalizeOutput v)⟩ := by
    rw [startRedesignGemini_valid req o f up hf hup hne]
    unfold startRedesignGeminiValidated
    simp [hrun]
  rw [h1]
  refine ⟨rfl, rfl, fun u => rfl, fun s => rfl, rfl, rfl, ?_, ?_⟩
  · intro u hu
    simpa [normalizeOutput] using hu
  · intro s hs
    simpa [normalizeOutput] using hs

/-- Witness for C4 amended: a URL-accessor result yields that URL in both
fields of a 201 response. -/
theorem C4_witness :
    (startRedesignGemini ⟨some ⟨"image/png", "AAA"⟩, some "Make it cozy", none, none⟩
        ⟨.ok "a table", .ok "x", .ok (.urlObject "https://img")⟩).1.body =
      RespBody.waitSuccess (normalizeOutput (.urlObject "https://img"))
        (normalizeOutput (.urlObject "https://img")) :=
  (C4_thm ⟨some ⟨"image/png", "AAA"⟩, some "Make it cozy", none, none⟩
      ⟨.ok "a table", .ok "x", .ok (.urlObject "https://img")⟩
      ⟨"image/png", "AAA"⟩ "Make it cozy" (.urlObject "https://img")
      rfl rfl (by decide) rfl).2.1

/-- C6 counterexample: a request carrying style "scandinavian_minimalist"
and roomType "kitchen" produces a composed prompt that contains neither
"Scandinavian Minimalist" nor "Kitchen" — the tags are never rendered. -/
theorem C6_counterexample :
    ExtCall.replicateRun "data:image/png;base64,AAA"
        (geminiEnhancedPrompt "Make it cozy" "a wooden table and two chairs") ∈
      (startRedesignGemini
        ⟨some ⟨"image/png", "AAA"⟩, some "Make it cozy",
         some "scandinavian_minimalist", some "kitchen"⟩
        ⟨.ok "a wooden table and two chairs", .ok "x", .ok (.urlObject "https://img")⟩).2 ∧
    strContains (geminiEnhancedPrompt "Make it cozy" "a wooden table and two chairs")
      "Scandinavian Minimalist" = false ∧
    strContains (geminiEnhancedPrompt "Make it cozy" "a wooden table and two chairs")
      "Kitchen" = false := by
  refine ⟨?_, by decide, by decide⟩
  decide

/-- C6 amended: style and room-type tags are not rejected but are ignored
entirely by both validated variants: the handlers never read them, so the
whole response and every outbound payload (including the composed prompt)
are independent of them, and no defaulting or human-readable rendering of
the tags occurs. -/
theorem C6_thm (file : Option FileModel) (up st1 rt1 st2 rt2 : Option String)
    (o : GeminiOracle) (img oup ost1 ort1 ost2 ort2 : Option String) (oo : OpenAIOracle) :
    startRedesignGemini ⟨file, up, st1, rt1⟩ o = startRedesignGemini ⟨file, up, st2, rt2⟩ o ∧
    startRedesignOpenAI ⟨img, oup, ost1, ort1⟩ oo =
      startRedesignOpenAI ⟨img, oup, ost2, ort2⟩ oo :=
  ⟨rfl, rfl⟩

/-- C9 counterexample: when gemini-1.5-flash fails with status 404 the
handler makes a second vision attempt against the alternate model
gemini-pro-vision — two vision calls in one request, refuting
"no step ever retries a failed external call". -/
theorem C9_counterexample :
    List.length (List.filter isVisionCall
      (startRedesignGemini ⟨some ⟨"image/png", "AAA"⟩, some "Make it cozy", none, none⟩
        ⟨.error ⟨some 404, none, some "Not Found", none⟩, .ok "a table",
         .ok (.urlObject "https://img")⟩).2) = 2 := by
  decide

/-- C9 amended: no external operation is ever attempted more than once,
with one exception: the Gemini-variant vision analysis, which after a
gemini-1.5-flash failure with status 404 makes exactly one second attempt
against gemini-pro-vision. The image-generation call is made at most once,
at most two vision calls ever occur, a non-404 vision failure triggers no
second attempt, a gemini-pro-vision call happens only after a 404 from
gemini-1.5-flash, and the OpenAI, bare and status-relay handlers each
issue every call at most once. -/
theorem C9_thm :
    (∀ (req : GeminiRequest) (o : GeminiOracle),
      List.countP isImageGenCall (startRedesignGemini req o).2 ≤ 1 ∧
      List.countP isVisionCall (startRedesignGemini req o).2 ≤ 2 ∧
      ((∃ e, o.flash = .error e ∧ e.status ≠ some 404) →
        List.countP isVisionCall (startRedesignGemini req o).2 ≤ 1) ∧
      (∀ d m i, ExtCall.geminiProVision d m i ∈ (startRedesignGemini req o).2 →
        ∃ e, o.flash = .error e ∧ e.status = some 404)) ∧
    (∀ (req : OpenAIRequest) (o : OpenAIOracle),
      List.countP isVisionCall (startRedesignOpenAI req o).2 ≤ 1 ∧
      List.countP isImageGenCall (startRedesignOpenAI req o).2 ≤ 1) ∧
    (∀ (req : BareRequest) (o : BareOracle), (startRedesignBare req o).2.length ≤ 1) ∧
    (∀ (id : QueryVal) (o : Except JsError Prediction), (getRedesign id o).2.length ≤ 1) := by
  refine ⟨?_, ?_, ?_, ?_⟩
  · intro req o
    rcases startRedesignGemini_calls_cases req o with h | ⟨f, up, h⟩
    · rw [h]
      refine ⟨by simp, by simp, fun _ => by simp, fun d m i hmem => ?_⟩
      simp at hmem
    · refine ⟨?_, ?_, ?_, ?_⟩
      · rw [h]
        rcases geminiVisionStep_calls o (((dataUri f).splitOn ",").getD 1 "") f.mimetype
          with hv | ⟨_, hv⟩ <;> rw [hv] <;>
          simp [List.countP_append, List.countP_cons, isImageGenCall, isVisionCall]
      · rw [h]
        rcases geminiVisionStep_calls o (((dataUri f).splitOn ",").getD 1 "") f.mimetype
          with hv | ⟨_, hv⟩ <;> rw [hv] <;>
          simp [List.countP_append, List.countP_cons, isImageGenCall, isVisionCall]
      · rintro ⟨e, hfl, h404⟩
        rw [h, geminiVisionStep_calls_of_nonretryable o _ _ e hfl h404]
        simp [List.countP_append, List.countP_cons, isImageGenCall, isVisionCall]
      · intro d m i hmem
        rw [h] at hmem
        rcases geminiVisionStep_calls o (((dataUri f).splitOn ",").getD 1 "") f.mimetype
          with hv | ⟨he, hv⟩
        · rw [hv] at hmem
          simp at hmem
        · exact he
  · intro req o
    by_cases h1 : truthyStr req.image = false
    · constructor <;> simp [startRedesignOpenAI, h1]
    · by_cases h2 : truthyStr req.userPrompt = false
      · constructor <;> simp [startRedesignOpenAI, h1, h2]
      · cases hv : o.vision with
        | error e =>
          constructor <;>
            simp [startRedesignOpenAI, h1, h2, hv, List.countP_cons, isVisionCall,
              isImageGenCall]
        | ok c =>
          cases hc : o.create <;> constructor <;>
            simp [startRedesignOpenAI, h1, h2, hv, hc, List.countP_cons, isVisionCall,
              isImageGenCall]
  · intro req o
    unfold startRedesignBare
    cases o.create <;> simp
  · intro id o
    unfold getRedesign
    cases id with
    | qstr s =>
      by_cases hs : s = ""
      · simp [hs]
      · cases o <;> simp [hs]
    | qarr => simp
    | qnone => simp

/-- Witness for C9 amended: with a non-404 vision failure there is no
second vision attempt (a single vision call is issued). -/
theorem C9_witness :
    List.countP isVisionCall
      (startRedesignGemini ⟨some ⟨"image/png", "AAA"⟩, some "Make it cozy", none, none⟩
        ⟨.error ⟨some 500, none, none, none⟩, .ok "x", .ok (.urlObject "https://img")⟩).2 ≤ 1 :=
  (C9_thm.1 ⟨some ⟨"image/png", "AAA"⟩, some "Make it cozy", none, none⟩
      ⟨.error ⟨some 500, none, none, none⟩, .ok "x", .ok (.urlObject "https://img")⟩).2.2.1
    ⟨⟨some 500, none, none, none⟩, rfl, by decide⟩

end DreamSpace
